import Mathlib

/-
  Verification of the typed-parameter codec and event bridge of
  libvirt-python (libvirt-override.c) against its specification.

  The C code is shallowly embedded: Python objects become the inductive
  `PyVal`, CPython exceptions become `PyErr`, the native
  `virTypedParameter` array becomes `List VirTypedParam`, and each C
  function of interest becomes a Lean function over those types.
  Fallible C paths (NULL return + raised exception) are `Except PyErr`.
-/

namespace LibvirtPy

/-! ## Native typed-parameter type codes (libvirt.h enum virTypedParameterType) -/

def VIR_TYPED_PARAM_INT : Int := 1
def VIR_TYPED_PARAM_UINT : Int := 2
def VIR_TYPED_PARAM_LLONG : Int := 3
def VIR_TYPED_PARAM_ULLONG : Int := 4
def VIR_TYPED_PARAM_DOUBLE : Int := 5
def VIR_TYPED_PARAM_BOOLEAN : Int := 6
def VIR_TYPED_PARAM_STRING : Int := 7
def VIR_TYPED_PARAM_LAST : Int := 8

def VIR_TYPED_PARAM_FIELD_LENGTH : Nat := 80

/-! ## Host (Python) values and exceptions -/

/-- Python exception classes raised by the marshaling layer. -/
inductive PyExc
  | lookupError
  | typeError
  | overflowError
  | memoryError
deriving DecidableEq, Repr

/-- A raised Python exception: class plus formatted message. -/
structure PyErr where
  exc : PyExc
  msg : String
deriving DecidableEq, Repr

/-- Shallow model of the Python objects this glue layer handles.
`voidPtrCap` and `freeCbCap` model the opaque typewrapper capsules around a
native `void *` and a native `virFreeCallback` (which may be NULL, hence
`Option`); pointers are modeled as `Nat` addresses. `pyFloat` carries the
64-bit pattern of the C `double`, which the codec only moves, never
computes with. -/
inductive PyVal
  | pyNone
  | pyInt (n : Int)
  | pyBool (b : Bool)
  | pyFloat (bits : Nat)
  | pyStr (s : String)
  | pyTuple (xs : List PyVal)
  | voidPtrCap (p : Nat)
  | freeCbCap (f : Option Nat)

/-! ## Native typed parameters (virTypedParameter) -/

/-- Payload of one `virTypedParameter` union member. The C union is modeled
as a sum whose variant matches the member the tagged code reads/writes; the
Bool payload (a C `char` holding 0/1) is modeled canonically as `Bool`. -/
inductive VirTypedValue
  | vInt (v : Int)
  | vUInt (v : Nat)
  | vLLong (v : Int)
  | vULLong (v : Nat)
  | vDouble (bits : Nat)
  | vBool (b : Bool)
  | vString (s : String)
deriving DecidableEq, Repr

/-- One element of a native typed-parameter array: `field` name (a
`char[VIR_TYPED_PARAM_FIELD_LENGTH]` buffer in C), numeric `type` tag, and
union payload. -/
structure VirTypedParam where
  field : String
  type : Int
  value : VirTypedValue
deriving DecidableEq, Repr

/-- Reading a union member in C yields its stored value only when the tag
matches the member last written; a mismatched read is unspecified and is
modeled by a fixed default. -/
def VirTypedValue.asI : VirTypedValue → Int
  | .vInt v => v
  | _ => 0

def VirTypedValue.asUi : VirTypedValue → Nat
  | .vUInt v => v
  | _ => 0

def VirTypedValue.asL : VirTypedValue → Int
  | .vLLong v => v
  | _ => 0

def VirTypedValue.asUl : VirTypedValue → Nat
  | .vULLong v => v
  | _ => 0

def VirTypedValue.asD : VirTypedValue → Nat
  | .vDouble v => v
  | _ => 0

def VirTypedValue.asB : VirTypedValue → Bool
  | .vBool v => v
  | _ => false

def VirTypedValue.asS : VirTypedValue → String
  | .vString v => v
  | _ => ""

/-- The C type system's guarantees on a `virTypedParameter`: the payload
variant and range match the type tag (the union member is a fixed-width C
integer), and the name fits the fixed `char[80]` field buffer. -/
def typeValueCoherent (t : Int) (v : VirTypedValue) : Bool :=
  match v with
  | .vInt n => t = VIR_TYPED_PARAM_INT && decide (-(2 ^ 31) ≤ n ∧ n < 2 ^ 31)
  | .vUInt n => t = VIR_TYPED_PARAM_UINT && decide (n < 2 ^ 32)
  | .vLLong n => t = VIR_TYPED_PARAM_LLONG && decide (-(2 ^ 63) ≤ n ∧ n < 2 ^ 63)
  | .vULLong n => t = VIR_TYPED_PARAM_ULLONG && decide (n < 2 ^ 64)
  | .vDouble _ => t = VIR_TYPED_PARAM_DOUBLE
  | .vBool _ => t = VIR_TYPED_PARAM_BOOLEAN
  | .vString _ => t = VIR_TYPED_PARAM_STRING

def VirTypedParam.wf (p : VirTypedParam) : Bool :=
  typeValueCoherent p.type p.value &&
    decide (p.field.length < VIR_TYPED_PARAM_FIELD_LENGTH)

/-- The type codes the codec's switch statements recognize. -/
def recognizedKind (t : Int) : Bool :=
  t = VIR_TYPED_PARAM_INT || t = VIR_TYPED_PARAM_UINT ||
  t = VIR_TYPED_PARAM_LLONG || t = VIR_TYPED_PARAM_ULLONG ||
  t = VIR_TYPED_PARAM_DOUBLE || t = VIR_TYPED_PARAM_BOOLEAN ||
  t = VIR_TYPED_PARAM_STRING

/-! ## typewrappers helpers

The wrap/unwrap helpers live in typewrappers.c, a repository file that is
not under src/ (only their callers are). They are modeled from the spec. -/

/-- Modelled from the spec: `libvirt_intWrap` (typewrappers.c, not under
src/) wraps a C integer as a host numeric value. -/
def libvirt_intWrap (n : Int) : PyVal := .pyInt n

/-- Modelled from the spec: `libvirt_longlongWrap` (typewrappers.c, not
under src/). -/
def libvirt_longlongWrap (n : Int) : PyVal := .pyInt n

/-- Modelled from the spec: `libvirt_ulonglongWrap` (typewrappers.c, not
under src/). -/
def libvirt_ulonglongWrap (n : Nat) : PyVal := .pyInt (n : Int)

/-- Modelled from the spec: `PyFloat_FromDouble` moves the double payload
into a host float unchanged. -/
def pyFloatFromDouble (bits : Nat) : PyVal := .pyFloat bits

/-- Modelled from the spec: `PyBool_FromLong` yields a host boolean. -/
def pyBoolFromLong (b : Bool) : PyVal := .pyBool b

/-- Modelled from the spec: `libvirt_constcharPtrWrap` (typewrappers.c, not
under src/) copies a native string buffer into a host string. -/
def libvirt_constcharPtrWrap (s : String) : PyVal := .pyStr s

/-- Modelled from the spec: host truthiness (`PyObject_IsTrue`). -/
def pyTruthy : PyVal → Bool
  | .pyNone => false
  | .pyInt n => decide (n ≠ 0)
  | .pyBool b => b
  | .pyFloat bits => decide (bits ≠ 0 ∧ bits ≠ 2 ^ 63)
  | .pyStr s => decide (s ≠ "")
  | .pyTuple xs => !xs.isEmpty
  | .voidPtrCap _ => true
  | .freeCbCap _ => true

/-- Modelled from the spec: `libvirt_intUnwrap` (typewrappers.c, not under
src/): a host integral value converted to a C `int`, with range check;
wrong host type is a type error, out of range an overflow error. -/
def libvirt_intUnwrap (v : PyVal) : Except PyErr Int :=
  match v with
  | .pyInt n =>
      if -(2 ^ 31) ≤ n ∧ n < 2 ^ 31 then .ok n
      else .error ⟨.overflowError, "python int too large to convert to C int"⟩
  | .pyBool b => .ok (if b then 1 else 0)
  | _ => .error ⟨.typeError, "an integer is required"⟩

/-- Modelled from the spec: `libvirt_uintUnwrap` (typewrappers.c, not under
src/). -/
def libvirt_uintUnwrap (v : PyVal) : Except PyErr Nat :=
  match v with
  | .pyInt n =>
      if 0 ≤ n ∧ n < 2 ^ 32 then .ok n.toNat
      else .error ⟨.overflowError, "python int too large to convert to C unsigned int"⟩
  | .pyBool b => .ok (if b then 1 else 0)
  | _ => .error ⟨.typeError, "an integer is required"⟩

/-- Modelled from the spec: `libvirt_longlongUnwrap` (typewrappers.c, not
under src/). -/
def libvirt_longlongUnwrap (v : PyVal) : Except PyErr Int :=
  match v with
  | .pyInt n =>
      if -(2 ^ 63) ≤ n ∧ n < 2 ^ 63 then .ok n
      else .error ⟨.overflowError, "python int too large to convert to C long long"⟩
  | .pyBool b => .ok (if b then 1 else 0)
  | _ => .error ⟨.typeError, "an integer is required"⟩

/-- Modelled from the spec: `libvirt_ulonglongUnwrap` (typewrappers.c, not
under src/). -/
def libvirt_ulonglongUnwrap (v : PyVal) : Except PyErr Nat :=
  match v with
  | .pyInt n =>
      if 0 ≤ n ∧ n < 2 ^ 64 then .ok n.toNat
      else .error ⟨.overflowError, "python int too large to convert to C unsigned long long"⟩
  | .pyBool b => .ok (if b then 1 else 0)
  | _ => .error ⟨.typeError, "an integer is required"⟩

/-- Modelled from the spec: `libvirt_doubleUnwrap` (typewrappers.c, not
under src/): a host floating-point value moved into a C double. -/
def libvirt_doubleUnwrap (v : PyVal) : Except PyErr Nat :=
  match v with
  | .pyFloat bits => .ok bits
  | _ => .error ⟨.typeError, "a float is required"⟩

/-- Modelled from the spec: `libvirt_boolUnwrap` (typewrappers.c, not under
src/) uses host truthiness. -/
def libvirt_boolUnwrap (v : PyVal) : Except PyErr Bool :=
  .ok (pyTruthy v)

/-- Modelled from the spec: `libvirt_charPtrUnwrap` (typewrappers.c, not
under src/): a host string copied into a freshly allocated C buffer. -/
def libvirt_charPtrUnwrap (v : PyVal) : Except PyErr String :=
  match v with
  | .pyStr s => .ok s
  | _ => .error ⟨.typeError, "a string is required"⟩

/-! ## Python dictionaries

Keys of the mappings this layer handles are host strings; a dictionary is
an insertion-ordered association list with unique keys, and overwriting a
key keeps its original position (CPython semantics). -/

abbrev PyDict := List (String × PyVal)

def dictSet (d : PyDict) (k : String) (v : PyVal) : PyDict :=
  if d.any (fun kv => kv.1 = k) then
    d.map (fun kv => if kv.1 = k then (k, v) else kv)
  else
    d ++ [(k, v)]

/-! ## getPyVirTypedParameter: decode (native array → host dict) -/

def typeNotRecognizedMsg (t : Int) : String :=
  "Type value \"" ++ toString t ++ "\" not recognized"

/-- The switch body of `getPyVirTypedParameter` for one element: wrap the
union member selected by the type tag, or raise the unrecognized-type
lookup error in the default branch. -/
def getPyVirTypedParameterVal (p : VirTypedParam) : Except PyErr PyVal :=
  if p.type = VIR_TYPED_PARAM_INT then .ok (libvirt_intWrap p.value.asI)
  else if p.type = VIR_TYPED_PARAM_UINT then .ok (libvirt_intWrap (p.value.asUi : Int))
  else if p.type = VIR_TYPED_PARAM_LLONG then .ok (libvirt_longlongWrap p.value.asL)
  else if p.type = VIR_TYPED_PARAM_ULLONG then .ok (libvirt_ulonglongWrap p.value.asUl)
  else if p.type = VIR_TYPED_PARAM_DOUBLE then .ok (pyFloatFromDouble p.value.asD)
  else if p.type = VIR_TYPED_PARAM_BOOLEAN then .ok (pyBoolFromLong p.value.asB)
  else if p.type = VIR_TYPED_PARAM_STRING then .ok (libvirt_constcharPtrWrap p.value.asS)
  else .error ⟨.lookupError, typeNotRecognizedMsg p.type⟩

/-- The decode loop: on the first element whose value (or key) cannot be
wrapped, the partially built dictionary is abandoned and the error
returned; otherwise each `(field, value)` pair is inserted in order. -/
def getPyVirTypedParameterGo : List VirTypedParam → PyDict → Except PyErr PyDict
  | [], info => .ok info
  | p :: rest, info =>
      match getPyVirTypedParameterVal p with
      | .error e => .error e
      | .ok v => getPyVirTypedParameterGo rest (dictSet info p.field v)

/-- `getPyVirTypedParameter`: convert a native typed-parameter array into a
host dictionary; NULL-with-exception return is `Except.error`. -/
def getPyVirTypedParameter (params : List VirTypedParam) : Except PyErr PyDict :=
  getPyVirTypedParameterGo params []

/-! ## setPyVirTypedParameter: encode with explicit schema -/

def attrNotRecognizedMsg (k : String) : String :=
  "Attribute name \"" ++ k ++ "\" could not be recognized"

def emptyDictMsg : String := "Dictionary must not be empty"

/-- The `strncpy(temp->field, keystr, VIR_TYPED_PARAM_FIELD_LENGTH - 1)`
copy of a key into the fixed-size field buffer. -/
def strncpyField (s : String) : String :=
  (s.toList.take (VIR_TYPED_PARAM_FIELD_LENGTH - 1)).asString

/-- The linear scan `for i < nparams; STREQ(params[i].field, keystr)`:
first schema entry whose field equals the key. -/
def lookupSchema (params : List VirTypedParam) (key : String) : Option VirTypedParam :=
  params.find? (fun p => p.field = key)

/-- The per-field switch of `setPyVirTypedParameter`: convert a host value
to the schema entry's type tag, or fail; the default branch raises the
unrecognized-type lookup error. -/
def convertToType (t : Int) (v : PyVal) : Except PyErr VirTypedValue :=
  if t = VIR_TYPED_PARAM_INT then (libvirt_intUnwrap v).map .vInt
  else if t = VIR_TYPED_PARAM_UINT then (libvirt_uintUnwrap v).map .vUInt
  else if t = VIR_TYPED_PARAM_LLONG then (libvirt_longlongUnwrap v).map .vLLong
  else if t = VIR_TYPED_PARAM_ULLONG then (libvirt_ulonglongUnwrap v).map .vULLong
  else if t = VIR_TYPED_PARAM_DOUBLE then (libvirt_doubleUnwrap v).map .vDouble
  else if t = VIR_TYPED_PARAM_BOOLEAN then (libvirt_boolUnwrap v).map .vBool
  else if t = VIR_TYPED_PARAM_STRING then (libvirt_charPtrUnwrap v).map .vString
  else .error ⟨.lookupError, typeNotRecognizedMsg t⟩

/-- The `PyDict_Next` loop of `setPyVirTypedParameter`: match each key
against the schema (unmatched key is a fatal lookup error), convert the
value to the schema's type, and fill the next output slot. Any failure
abandons the whole output. -/
def setPyGo (params : List VirTypedParam) : PyDict → Except PyErr (List VirTypedParam)
  | [] => .ok []
  | (k, v) :: rest =>
      match lookupSchema params k with
      | none => .error ⟨.lookupError, attrNotRecognizedMsg k⟩
      | some sp =>
          match convertToType sp.type v with
          | .error e => .error e
          | .ok val =>
              match setPyGo params rest with
              | .error e => .error e
              | .ok tail => .ok (⟨strncpyField k, sp.type, val⟩ :: tail)

/-- Result of `setPyVirTypedParameter` plus its cleanup action: on the
error paths after allocation, `virTypedParamsFree(ret, size)` releases the
whole `size`-slot allocation (string payloads of every filled entry
included); `freed` records `(allocated length, count passed to free)`. -/
structure EncodeResult where
  result : Except PyErr (List VirTypedParam)
  freed : Option (Nat × Nat)
deriving Repr

/-- `setPyVirTypedParameter(info, params, nparams)`: encode a host
dictionary against the explicit schema `params`. An empty dictionary is
rejected up front (before any allocation); after allocation every failure
frees the full allocation and returns NULL with the exception. -/
def setPyVirTypedParameter (info : PyDict) (params : List VirTypedParam) : EncodeResult :=
  if info.length = 0 then
    ⟨.error ⟨.lookupError, emptyDictMsg⟩, none⟩
  else
    match setPyGo params info with
    | .error e => ⟨.error e, some (info.length, info.length)⟩
    | .ok arr => ⟨.ok arr, none⟩

/-! ## virPyDictToTypedParamOne: encode with inferred schema -/

/-- A `virPyTypedParamsHint`: explicit per-field type for the inferred
encoder. -/
structure PyHint where
  name : String
  type : Int
deriving DecidableEq, Repr

def unknownTypeMsg (k : String) : String :=
  "Unknown type of \"" ++ k ++ "\" field"

/-- The switch over `(virTypedParameterType) type` in
`virPyDictToTypedParamOne`: unwrap the host value at the selected type and
append one entry via the corresponding `virTypedParamsAdd` call; the
`VIR_TYPED_PARAM_LAST` case and an out-of-enum value match no case and
fall through with nothing appended. -/
def virPyTypedParamsAddOfType (t : Int) (keystr : String) (value : PyVal) :
    Except PyErr (List VirTypedParam) :=
  if t = VIR_TYPED_PARAM_INT then
    (libvirt_intUnwrap value).map (fun v => [⟨keystr, t, .vInt v⟩])
  else if t = VIR_TYPED_PARAM_UINT then
    (libvirt_uintUnwrap value).map (fun v => [⟨keystr, t, .vUInt v⟩])
  else if t = VIR_TYPED_PARAM_LLONG then
    (libvirt_longlongUnwrap value).map (fun v => [⟨keystr, t, .vLLong v⟩])
  else if t = VIR_TYPED_PARAM_ULLONG then
    (libvirt_ulonglongUnwrap value).map (fun v => [⟨keystr, t, .vULLong v⟩])
  else if t = VIR_TYPED_PARAM_DOUBLE then
    (libvirt_doubleUnwrap value).map (fun v => [⟨keystr, t, .vDouble v⟩])
  else if t = VIR_TYPED_PARAM_BOOLEAN then
    (libvirt_boolUnwrap value).map (fun v => [⟨keystr, t, .vBool v⟩])
  else if t = VIR_TYPED_PARAM_STRING then
    (libvirt_charPtrUnwrap value).map (fun v => [⟨keystr, t, .vString v⟩])
  else
    .ok []

/-- `virPyDictToTypedParamOne`: encode one dictionary entry. Kind
selection: a hint matching the key wins; else the host dynamic type
decides, where an integral value gets `ULLONG` exactly when
`PyLong_AsUnsignedLongLong` succeeds on it (non-negative and below 2^64)
and `LLONG` otherwise; a value of no inferable type raises the
unknown-type error. -/
def virPyDictToTypedParamOne (hints : List PyHint) (keystr : String) (value : PyVal) :
    Except PyErr (List VirTypedParam) :=
  let hintType : Option Int := (hints.find? (fun h => h.name = keystr)).map (fun h => h.type)
  let type : Option Int :=
    match hintType with
    | some t => some t
    | none =>
        match value with
        | .pyStr _ => some VIR_TYPED_PARAM_STRING
        | .pyBool _ => some VIR_TYPED_PARAM_BOOLEAN
        | .pyInt n =>
            if n < 0 ∨ 2 ^ 64 ≤ n then some VIR_TYPED_PARAM_LLONG
            else some VIR_TYPED_PARAM_ULLONG
        | .pyFloat _ => some VIR_TYPED_PARAM_DOUBLE
        | _ => none
  match type with
  | none => .error ⟨.typeError, unknownTypeMsg keystr⟩
  | some t => virPyTypedParamsAddOfType t keystr value

/-! ## Scheduler-parameter entry points (two-phase read-then-patch)

The native collaborator calls are inputs: `schedTypeRet` is
`virDomainGetSchedulerType`'s out-count (`none` for a NULL return),
`getParamsRet` the populated full-schema array (`none` for a negative
return), `setRet` the native set call's return value. -/

/-- Outcome of a parameter-setting entry point as seen by the host caller. -/
inductive SchedOutcome
  | pyError (e : PyErr)
  | intFail
  | intSuccess
deriving DecidableEq, Repr

/-- Observable effects of one parameter-setting entry point: the outcome,
the `virTypedParamsFree` calls on the full-schema array and on the derived
override array (each recorded as `(array length, count passed to free)`),
and the count handed to the native set call. -/
structure SchedResult where
  outcome : SchedOutcome
  freedParams : Option (Nat × Nat)
  freedNewParams : Option (Nat × Nat)
  setCallCount : Option Nat
deriving Repr

def emptyInfoMsg : String := "Need non-empty dictionary to set attributes"

def noSettableMsg : String := "Domain has no settable attributes"

/-- `libvirt_virDomainSetSchedulerParameters`: reject an empty dictionary,
discover the schema size, populate the full schema, encode overrides, call
the native setter with the dictionary's cardinality, and free both arrays
at cleanup — the override array with `size`, its own length. -/
def libvirt_virDomainSetSchedulerParameters (info : PyDict)
    (schedTypeRet : Option Nat) (getParamsRet : Option (List VirTypedParam))
    (setRet : Int) : SchedResult :=
  if info.length = 0 then
    ⟨.pyError ⟨.lookupError, emptyInfoMsg⟩, none, none, none⟩
  else
    match schedTypeRet with
    | none => ⟨.intFail, none, none, none⟩
    | some nparams =>
        if nparams = 0 then
          ⟨.pyError ⟨.lookupError, noSettableMsg⟩, none, none, none⟩
        else
          match getParamsRet with
          | none => ⟨.intFail, some (nparams, nparams), none, none⟩
          | some params =>
              match (setPyVirTypedParameter info params).result with
              | .error e => ⟨.pyError e, some (params.length, nparams), none, none⟩
              | .ok newParams =>
                  if setRet < 0 then
                    ⟨.intFail, some (params.length, nparams),
                      some (newParams.length, info.length), some info.length⟩
                  else
                    ⟨.intSuccess, some (params.length, nparams),
                      some (newParams.length, info.length), some info.length⟩

/-- `libvirt_virDomainSetSchedulerParametersFlags`: identical shape, but
its cleanup frees the override array with `virTypedParamsFree(new_params,
nparams)` — the full schema count, not the override array's length. -/
def libvirt_virDomainSetSchedulerParametersFlags (info : PyDict)
    (schedTypeRet : Option Nat) (getParamsRet : Option (List VirTypedParam))
    (setRet : Int) (flags : Nat) : SchedResult :=
  let _ := flags
  if info.length = 0 then
    ⟨.pyError ⟨.lookupError, emptyInfoMsg⟩, none, none, none⟩
  else
    match schedTypeRet with
    | none => ⟨.intFail, none, none, none⟩
    | some nparams =>
        if nparams = 0 then
          ⟨.pyError ⟨.lookupError, noSettableMsg⟩, none, none, none⟩
        else
          match getParamsRet with
          | none => ⟨.intFail, some (nparams, nparams), none, none⟩
          | some params =>
              match (setPyVirTypedParameter info params).result with
              | .error e => ⟨.pyError e, some (params.length, nparams), none, none⟩
              | .ok newParams =>
                  if setRet < 0 then
                    ⟨.intFail, some (params.length, nparams),
                      some (newParams.length, nparams), some info.length⟩
                  else
                    ⟨.intSuccess, some (params.length, nparams),
                      some (newParams.length, nparams), some info.length⟩

/-! ## Event bridge: global event-loop implementation registration

Host callables are modeled by `Nat` identities. The process-wide state
holds the six installed slots (`addHandleObj` through `removeTimeoutObj`,
empty before the first registration), the multiset of references this
module holds (`Py_INCREF` conses, `Py_XDECREF` removes one occurrence),
and whether the C-level `virEventRegisterImpl` has been called. -/

structure EventImplState where
  slots : List Nat
  held : List Nat
  cImplInstalled : Bool
deriving DecidableEq, Repr

/-- Result of `libvirt_virEventRegisterImpl`: the wrapped int return, the
state afterwards, and the references released at the top of the call,
before argument parsing and callability validation. -/
structure RegisterResult where
  retval : Int
  state : EventImplState
  releasedFirst : List Nat
deriving DecidableEq, Repr

/-- `libvirt_virEventRegisterImpl`: the previous six objects are unrefed
first, unconditionally; then the arguments are parsed (`parseOk`) and each
checked against the callable set; any failure returns `VIR_PY_INT_FAIL`
with the slots already overwritten by the parse and the old references
gone. On success the six new objects are increfed and the C event
implementation registered. -/
def libvirt_virEventRegisterImpl (st : EventImplState) (parseOk : Bool)
    (args : List Nat) (callable : List Nat) : RegisterResult :=
  let held1 := st.held.diff st.slots
  if parseOk then
    if args.all (fun a => a ∈ callable) then
      ⟨0, ⟨args, args ++ held1, true⟩, st.slots⟩
    else
      ⟨-1, ⟨args, held1, st.cImplInstalled⟩, st.slots⟩
  else
    ⟨-1, ⟨st.slots, held1, st.cImplInstalled⟩, st.slots⟩

/-! ## Event bridge: remove-handle / remove-timeout -/

/-- Modelled from the spec: `PyvirFreeCallback_Get` (typewrappers.h, not
under src/) reads the wrapped native release-function pointer out of its
capsule; defined here on capsule values only (the C macro blindly casts,
and the bridge's contract guarantees a capsule). -/
def PyvirFreeCallback_Get : PyVal → Option Nat
  | .freeCbCap f => f
  | _ => none

/-- Modelled from the spec: `PyvirVoidPtr_Get` (typewrappers.h, not under
src/) reads the wrapped opaque pointer out of its capsule. -/
def PyvirVoidPtr_Get : PyVal → Nat
  | .voidPtrCap p => p
  | _ => 0

/-- Observable behavior of one remove call: the int returned to libvirt,
every `(*cff)(opaque)` release invocation performed as `(callback pointer,
opaque pointer)` pairs, and whether the failure was reported
(`PyErr_Print` for a raise, the protocol-violation log for a malformed
result). -/
structure RemoveResult where
  retval : Int
  releaseCalls : List (Nat × Nat)
  violationLogged : Bool
deriving DecidableEq, Repr

/-- Is the host primitive's result a 3-tuple (`PyTuple_Check` plus
`PyTuple_Size == 3`)? -/
def isTuple3 : PyVal → Bool
  | .pyTuple xs => decide (xs.length = 3)
  | _ => false

/-- `libvirt_virEventRemoveHandleFunc`: call the registered remove-handle
primitive (its outcome is `primRet`, `none` when it raised); a well-formed
3-tuple result yields exactly one release-callback invocation (when the
wrapped callback is non-NULL) and success; anything else is logged and
reported as failure. -/
def libvirt_virEventRemoveHandleFunc (watch : Int) (primRet : Option PyVal) :
    RemoveResult :=
  let _ := watch
  match primRet with
  | none => ⟨-1, [], true⟩
  | some result =>
      match result with
      | .pyTuple xs =>
          if xs.length = 3 then
            let opq := xs.getD 1 .pyNone
            let ff := xs.getD 2 .pyNone
            match PyvirFreeCallback_Get ff with
            | some cff => ⟨0, [(cff, PyvirVoidPtr_Get opq)], false⟩
            | none => ⟨0, [], false⟩
          else ⟨-1, [], true⟩
      | _ => ⟨-1, [], true⟩

/-- `libvirt_virEventRemoveTimeoutFunc`: textually the same protocol as the
remove-handle bridge, against the remove-timeout primitive. -/
def libvirt_virEventRemoveTimeoutFunc (timer : Int) (primRet : Option PyVal) :
    RemoveResult :=
  let _ := timer
  match primRet with
  | none => ⟨-1, [], true⟩
  | some result =>
      match result with
      | .pyTuple xs =>
          if xs.length = 3 then
            let opq := xs.getD 1 .pyNone
            let ff := xs.getD 2 .pyNone
            match PyvirFreeCallback_Get ff with
            | some cff => ⟨0, [(cff, PyvirVoidPtr_Get opq)], false⟩
            | none => ⟨0, [], false⟩
          else ⟨-1, [], true⟩
      | _ => ⟨-1, [], true⟩

/-! ## Per-event dispatch: domain lifecycle callback -/

/-- Observable behavior of `libvirt_virConnectDomainEventLifecycleCallback`
at the native boundary: the int handed back to libvirt, whether a failure
was reported through `PyErr_Print` (which also clears it), and whether an
exception is left pending across the boundary. -/
structure LifecycleResult where
  retval : Int
  errorReported : Bool
  pendingException : Bool
deriving DecidableEq, Repr

/-- `libvirt_virConnectDomainEventLifecycleCallback`: wrap the `"conn"`
key (`dictKeyOk`), ref and wrap the domain (`domWrapOk`, with the ref
released again on wrap failure), then invoke
`_dispatchDomainEventLifecycleCallback` on the connection proxy
(`dispatchRet`, `none` when the call could not be completed). The return
is 0 exactly when the dispatch call produced a value; every failure is
printed and cleared, never propagated. -/
def libvirt_virConnectDomainEventLifecycleCallback (dictKeyOk : Bool)
    (domWrapOk : Bool) (dispatchRet : Option PyVal) : LifecycleResult :=
  if dictKeyOk then
    if domWrapOk then
      match dispatchRet with
      | some _ => ⟨0, false, false⟩
      | none => ⟨-1, true, false⟩
    else ⟨-1, true, false⟩
  else ⟨-1, true, false⟩

/-! ## Helper lemmas on the decode path -/

theorem getVal_recognized (p : VirTypedParam) (h : recognizedKind p.type = true) :
    ∃ v, getPyVirTypedParameterVal p = .ok v := by
  unfold recognizedKind at h
  simp only [Bool.or_eq_true, decide_eq_true_eq] at h
  unfold getPyVirTypedParameterVal
  rcases h with ((((((h | h) | h) | h) | h) | h) | h) <;>
    simp [h, VIR_TYPED_PARAM_INT, VIR_TYPED_PARAM_UINT, VIR_TYPED_PARAM_LLONG,
      VIR_TYPED_PARAM_ULLONG, VIR_TYPED_PARAM_DOUBLE, VIR_TYPED_PARAM_BOOLEAN,
      VIR_TYPED_PARAM_STRING]

theorem getVal_unrecognized (p : VirTypedParam) (h : recognizedKind p.type = false) :
    getPyVirTypedParameterVal p = .error ⟨.lookupError, typeNotRecognizedMsg p.type⟩ := by
  unfold recognizedKind at h
  simp only [Bool.or_eq_false_iff, decide_eq_false_iff_not] at h
  obtain ⟨⟨⟨⟨⟨⟨h1, h2⟩, h3⟩, h4⟩, h5⟩, h6⟩, h7⟩ := h
  unfold getPyVirTypedParameterVal
  simp [h1, h2, h3, h4, h5, h6, h7]

theorem decodeGo_stops_at_unrecognized (p : VirTypedParam) (post : List VirTypedParam)
    (hp : recognizedKind p.type = false) :
    ∀ (pre : List VirTypedParam) (acc : PyDict),
      (∀ q ∈ pre, recognizedKind q.type = true) →
      getPyVirTypedParameterGo (pre ++ p :: post) acc =
        .error ⟨.lookupError, typeNotRecognizedMsg p.type⟩
  | [], acc, _ => by
      simp [getPyVirTypedParameterGo, getVal_unrecognized p hp]
  | q :: rest, acc, hpre => by
      obtain ⟨v, hv⟩ := getVal_recognized q (hpre q (by simp))
      simp only [List.cons_append, getPyVirTypedParameterGo, hv]
      exact decodeGo_stops_at_unrecognized p post hp rest _
        (fun r hr => hpre r (by simp [hr]))

/-- C10: decoding an empty TypedValueSet (count 0) succeeds and returns a
freshly created empty dictionary, not an error. -/
theorem c10_decode_empty_set_is_empty_dict : getPyVirTypedParameter [] = .ok [] := rfl

/-- C4: decoding a TypedValueSet whose first offending element carries a
kind code outside the recognized set raises a lookup error whose message
names the numeric kind code, stops at that element (whatever follows it),
and returns failure instead of any mapping. -/
theorem c4_decode_rejects_unknown_kind (pre : List VirTypedParam) (p : VirTypedParam)
    (post : List VirTypedParam)
    (hpre : ∀ q ∈ pre, recognizedKind q.type = true)
    (hp : recognizedKind p.type = false) :
    getPyVirTypedParameter (pre ++ p :: post) =
      .error ⟨.lookupError, typeNotRecognizedMsg p.type⟩ :=
  decodeGo_stops_at_unrecognized p post hp pre [] hpre

theorem c4_witness :
    getPyVirTypedParameter [⟨"a", 1, .vInt 4⟩, ⟨"b", 0, .vInt 0⟩, ⟨"c", 7, .vString "s"⟩] =
      .error ⟨.lookupError, typeNotRecognizedMsg 0⟩ :=
  c4_decode_rejects_unknown_kind [⟨"a", 1, .vInt 4⟩] ⟨"b", 0, .vInt 0⟩
    [⟨"c", 7, .vString "s"⟩] (by decide) (by decide)

/-- C7: an empty mapping is rejected with the mapping-required variant,
both by the explicit-schema encoder ("Dictionary must not be empty") and
by the set-parameters entry point ("Need non-empty dictionary to set
attributes"), while a discovered schema with zero fields yields the
distinct nothing-settable variant ("Domain has no settable attributes");
the three messages are pairwise distinct, so the caller can tell the
cases apart. -/
theorem c7_empty_input_variants (params : List VirTypedParam) (info : PyDict)
    (schedTypeRet : Option Nat) (getParamsRet : Option (List VirTypedParam))
    (setRet : Int) :
    (params ≠ [] →
      (setPyVirTypedParameter [] params).result = .error ⟨.lookupError, emptyDictMsg⟩) ∧
    (info.length = 0 →
      (libvirt_virDomainSetSchedulerParameters info schedTypeRet getParamsRet
        setRet).outcome = .pyError ⟨.lookupError, emptyInfoMsg⟩) ∧
    (info.length ≠ 0 →
      (libvirt_virDomainSetSchedulerParameters info (some 0) getParamsRet
        setRet).outcome = .pyError ⟨.lookupError, noSettableMsg⟩) ∧
    emptyDictMsg ≠ noSettableMsg ∧ emptyInfoMsg ≠ noSettableMsg ∧
    emptyDictMsg ≠ emptyInfoMsg := by
  refine ⟨fun _ => rfl, fun h => ?_, fun h => ?_, by decide, by decide, by decide⟩
  · unfold libvirt_virDomainSetSchedulerParameters
    rw [if_pos h]
  · unfold libvirt_virDomainSetSchedulerParameters
    rw [if_neg h]
    rfl

theorem c7_witness :
    (setPyVirTypedParameter [] [⟨"cpu_shares", VIR_TYPED_PARAM_ULLONG, .vULLong 0⟩]).result =
      .error ⟨.lookupError, emptyDictMsg⟩ ∧
    (libvirt_virDomainSetSchedulerParameters [] (some 3) none 0).outcome =
      .pyError ⟨.lookupError, emptyInfoMsg⟩ ∧
    (libvirt_virDomainSetSchedulerParameters [("cpu_shares", .pyInt 5)] (some 0)
      none 0).outcome = .pyError ⟨.lookupError, noSettableMsg⟩ :=
  ⟨(c7_empty_input_variants [⟨"cpu_shares", VIR_TYPED_PARAM_ULLONG, .vULLong 0⟩]
      [] (some 3) none 0).1 (by simp),
   (c7_empty_input_variants [] [] (some 3) none 0).2.1 rfl,
   (c7_empty_input_variants [] [("cpu_shares", .pyInt 5)] (some 0) none 0).2.2.1
      (by simp)⟩

/-- C8: at a one-entry override mapping against a discovered two-field
schema, the Flags variant of the scheduler setter frees the derived
override array (length 1) with the full schema count 2 — the count does
not match the array's own length — while the non-Flags variant frees it
with its own length 1; both pass the override cardinality 1 to the native
set call. This exhibits the claim's violation in
`libvirt_virDomainSetSchedulerParametersFlags`. -/
theorem c8_flags_variant_frees_override_with_schema_count :
    (libvirt_virDomainSetSchedulerParametersFlags [("cap", .pyInt 1)] (some 2)
        (some [⟨"cap", VIR_TYPED_PARAM_ULLONG, .vULLong 0⟩,
               ⟨"weight", VIR_TYPED_PARAM_ULLONG, .vULLong 0⟩]) 0 0).freedNewParams =
      some (1, 2) ∧
    (libvirt_virDomainSetSchedulerParametersFlags [("cap", .pyInt 1)] (some 2)
        (some [⟨"cap", VIR_TYPED_PARAM_ULLONG, .vULLong 0⟩,
               ⟨"weight", VIR_TYPED_PARAM_ULLONG, .vULLong 0⟩]) 0 0).setCallCount =
      some 1 ∧
    (libvirt_virDomainSetSchedulerParameters [("cap", .pyInt 1)] (some 2)
        (some [⟨"cap", VIR_TYPED_PARAM_ULLONG, .vULLong 0⟩,
               ⟨"weight", VIR_TYPED_PARAM_ULLONG, .vULLong 0⟩]) 0).freedNewParams =
      some (1, 1) ∧
    (1 : Nat) ≠ 2 := by
  refine ⟨?_, ?_, ?_, by decide⟩ <;> rfl

/-- C9: the domain lifecycle dispatch callback never leaves an exception
pending across the native boundary; given the two wrap steps succeed, it
returns 0 to libvirt exactly when the dispatch-method invocation on the
connection proxy produced a value, returns -1 when that invocation could
not be completed, and in that case the failure is reported through
PyErr_Print. -/
theorem c9_lifecycle_return_code (dictKeyOk domWrapOk : Bool)
    (dispatchRet : Option PyVal) :
    (libvirt_virConnectDomainEventLifecycleCallback dictKeyOk domWrapOk
      dispatchRet).pendingException = false ∧
    (dictKeyOk = true → domWrapOk = true →
      (((libvirt_virConnectDomainEventLifecycleCallback dictKeyOk domWrapOk
          dispatchRet).retval = 0 ↔ dispatchRet.isSome = true) ∧
        (dispatchRet = none →
          (libvirt_virConnectDomainEventLifecycleCallback dictKeyOk domWrapOk
            dispatchRet).errorReported = true))) := by
  cases dictKeyOk <;> cases domWrapOk <;> cases dispatchRet <;>
    simp [libvirt_virConnectDomainEventLifecycleCallback]

theorem c9_witness :
    (libvirt_virConnectDomainEventLifecycleCallback true true
      (some .pyNone)).retval = 0 ∧
    (libvirt_virConnectDomainEventLifecycleCallback true true none).retval = -1 ∧
    (libvirt_virConnectDomainEventLifecycleCallback true true none).errorReported = true :=
  ⟨((c9_lifecycle_return_code true true (some .pyNone)).2 rfl rfl).1.mpr rfl,
   by
    have h := ((c9_lifecycle_return_code true true none).2 rfl rfl).1
    revert h
    simp [libvirt_virConnectDomainEventLifecycleCallback],
   ((c9_lifecycle_return_code true true none).2 rfl rfl).2 rfl⟩

/-- C3: for both bridge remove functions, a well-formed 3-tuple from the
host remove primitive whose release capsule wraps a non-NULL callback
leads to exactly one release invocation on the wrapped opaque pointer and
a 0 return (and to zero invocations with a NULL release callback, still
returning 0); a raise or any non-3-tuple result is logged, triggers no
release invocation, and returns -1. -/
theorem c3_remove_release_protocol (watch timer : Int) (primRet : Option PyVal) :
    (∀ idv op f,
      primRet = some (.pyTuple [idv, .voidPtrCap op, .freeCbCap (some f)]) →
      (libvirt_virEventRemoveHandleFunc watch primRet).retval = 0 ∧
      (libvirt_virEventRemoveHandleFunc watch primRet).releaseCalls = [(f, op)] ∧
      (libvirt_virEventRemoveTimeoutFunc timer primRet).retval = 0 ∧
      (libvirt_virEventRemoveTimeoutFunc timer primRet).releaseCalls = [(f, op)]) ∧
    (∀ idv op,
      primRet = some (.pyTuple [idv, .voidPtrCap op, .freeCbCap none]) →
      (libvirt_virEventRemoveHandleFunc watch primRet).retval = 0 ∧
      (libvirt_virEventRemoveHandleFunc watch primRet).releaseCalls = [] ∧
      (libvirt_virEventRemoveTimeoutFunc timer primRet).retval = 0 ∧
      (libvirt_virEventRemoveTimeoutFunc timer primRet).releaseCalls = []) ∧
    (primRet = none →
      (libvirt_virEventRemoveHandleFunc watch primRet).retval = -1 ∧
      (libvirt_virEventRemoveHandleFunc watch primRet).releaseCalls = [] ∧
      (libvirt_virEventRemoveHandleFunc watch primRet).violationLogged = true ∧
      (libvirt_virEventRemoveTimeoutFunc timer primRet).retval = -1 ∧
      (libvirt_virEventRemoveTimeoutFunc timer primRet).releaseCalls = [] ∧
      (libvirt_virEventRemoveTimeoutFunc timer primRet).violationLogged = true) ∧
    (∀ v, primRet = some v → isTuple3 v = false →
      (libvirt_virEventRemoveHandleFunc watch primRet).retval = -1 ∧
      (libvirt_virEventRemoveHandleFunc watch primRet).releaseCalls = [] ∧
      (libvirt_virEventRemoveHandleFunc watch primRet).violationLogged = true ∧
      (libvirt_virEventRemoveTimeoutFunc timer primRet).retval = -1 ∧
      (libvirt_virEventRemoveTimeoutFunc timer primRet).releaseCalls = [] ∧
      (libvirt_virEventRemoveTimeoutFunc timer primRet).violationLogged = true) := by
  refine ⟨?_, ?_, ?_, ?_⟩
  · rintro idv op f rfl
    refine ⟨rfl, rfl, rfl, rfl⟩
  · rintro idv op rfl
    refine ⟨rfl, rfl, rfl, rfl⟩
  · rintro rfl
    refine ⟨rfl, rfl, rfl, rfl, rfl, rfl⟩
  · rintro v rfl hv
    cases v with
    | pyTuple xs =>
        have hlen : ¬ xs.length = 3 := by
          simpa [isTuple3] using hv
        refine ⟨?_, ?_, ?_, ?_, ?_, ?_⟩ <;>
          simp [libvirt_virEventRemoveHandleFunc, libvirt_virEventRemoveTimeoutFunc, hlen]
    | pyNone => refine ⟨rfl, rfl, rfl, rfl, rfl, rfl⟩
    | pyInt n => refine ⟨rfl, rfl, rfl, rfl, rfl, rfl⟩
    | pyBool b => refine ⟨rfl, rfl, rfl, rfl, rfl, rfl⟩
    | pyFloat bits => refine ⟨rfl, rfl, rfl, rfl, rfl, rfl⟩
    | pyStr s => refine ⟨rfl, rfl, rfl, rfl, rfl, rfl⟩
    | voidPtrCap p => refine ⟨rfl, rfl, rfl, rfl, rfl, rfl⟩
    | freeCbCap f => refine ⟨rfl, rfl, rfl, rfl, rfl, rfl⟩

theorem c3_witness :
    (libvirt_virEventRemoveHandleFunc 4
      (some (.pyTuple [.pyInt 9, .voidPtrCap 7, .freeCbCap (some 5)]))).releaseCalls =
      [(5, 7)] ∧
    (libvirt_virEventRemoveHandleFunc 4
      (some (.pyTuple [.pyInt 9, .voidPtrCap 7, .freeCbCap (some 5)]))).retval = 0 ∧
    (libvirt_virEventRemoveTimeoutFunc 2 (some (.pyInt 0))).retval = -1 :=
  ⟨((c3_remove_release_protocol 4 2 _).1 (.pyInt 9) 7 5 rfl).2.1,
   ((c3_remove_release_protocol 4 2 _).1 (.pyInt 9) 7 5 rfl).1,
   ((c3_remove_release_protocol 4 2 (some (.pyInt 0))).2.2.2 (.pyInt 0) rfl
      rfl).2.2.2.1⟩

/-- C2 counterexample: with six callables installed and referenced, a
registration call whose sixth argument is not callable is rejected
(retval -1), yet the previous set's references are no longer held and the
slots no longer hold the previous set — contradicting the claim that on
failure the previously installed set remains installed with its
references still held. -/
theorem c2_counterexample :
    (libvirt_virEventRegisterImpl ⟨[1, 2, 3, 4, 5, 6], [1, 2, 3, 4, 5, 6], true⟩
        true [7, 8, 9, 10, 11, 12] [7, 8, 9, 10, 11]).retval = -1 ∧
    (libvirt_virEventRegisterImpl ⟨[1, 2, 3, 4, 5, 6], [1, 2, 3, 4, 5, 6], true⟩
        true [7, 8, 9, 10, 11, 12] [7, 8, 9, 10, 11]).state.held = [] ∧
    (libvirt_virEventRegisterImpl ⟨[1, 2, 3, 4, 5, 6], [1, 2, 3, 4, 5, 6], true⟩
        true [7, 8, 9, 10, 11, 12] [7, 8, 9, 10, 11]).state.slots ≠
      [1, 2, 3, 4, 5, 6] := by
  refine ⟨rfl, by decide, by decide⟩

/-- C2 amended: virEventRegisterImpl releases the previously installed
set's references first, before parsing and validation; when parsing fails
or any argument is not callable the call returns failure with the old
references already released (and nothing new retained); on success the
six new callables are installed, retained, and the C-level event
implementation is registered. -/
theorem c2_register_releases_old_first (st : EventImplState) (parseOk : Bool)
    (args callable : List Nat) :
    (libvirt_virEventRegisterImpl st parseOk args callable).releasedFirst = st.slots ∧
    (¬(parseOk = true ∧ args.all (fun a => a ∈ callable) = true) →
      (libvirt_virEventRegisterImpl st parseOk args callable).retval = -1 ∧
      (libvirt_virEventRegisterImpl st parseOk args callable).state.held =
        st.held.diff st.slots) ∧
    (parseOk = true → args.all (fun a => a ∈ callable) = true →
      (libvirt_virEventRegisterImpl st parseOk args callable).retval = 0 ∧
      (libvirt_virEventRegisterImpl st parseOk args callable).state.slots = args ∧
      (libvirt_virEventRegisterImpl st parseOk args callable).state.held =
        args ++ st.held.diff st.slots ∧
      (libvirt_virEventRegisterImpl st parseOk args callable).state.cImplInstalled =
        true) := by
  cases parseOk with
  | false =>
      refine ⟨rfl, fun _ => ⟨rfl, rfl⟩, fun h _ => by cases h⟩
  | true =>
      by_cases hc : args.all (fun a => a ∈ callable) = true
      · refine ⟨?_, fun hn => absurd ⟨rfl, hc⟩ hn, fun _ _ => ?_⟩ <;>
          simp [libvirt_virEventRegisterImpl, hc]
      · refine ⟨?_, fun _ => ?_, fun _ h => absurd h hc⟩ <;>
          simp [libvirt_virEventRegisterImpl, hc]

theorem c2_witness :
    (libvirt_virEventRegisterImpl ⟨[], [], false⟩ true [1, 2, 3, 4, 5, 6]
      [1, 2, 3, 4, 5, 6]).retval = 0 ∧
    (libvirt_virEventRegisterImpl ⟨[], [], false⟩ true [1, 2, 3, 4, 5, 6]
      [1, 2, 3, 4, 5, 6]).state.cImplInstalled = true :=
  ⟨((c2_register_releases_old_first ⟨[], [], false⟩ true [1, 2, 3, 4, 5, 6]
      [1, 2, 3, 4, 5, 6]).2.2 rfl (by decide)).1,
   ((c2_register_releases_old_first ⟨[], [], false⟩ true [1, 2, 3, 4, 5, 6]
      [1, 2, 3, 4, 5, 6]).2.2 rfl (by decide)).2.2.2⟩

/-! ## C6: inferred-schema kind selection -/

/-- The kind-selection precedence exactly as the specification words it
(spec-side definition, for comparison with `virPyDictToTypedParamOne`): an
explicit per-field hint matching the key wins; else string-like selects
String, else boolean selects Bool, else an integral value selects Int64
when negative and UInt64 otherwise, else floating-point selects Double;
anything else selects nothing. -/
def specKindPrecedence (hints : List PyHint) (key : String) (value : PyVal) :
    Option Int :=
  match (hints.find? (fun h => h.name = key)).map (fun h => h.type) with
  | some t => some t
  | none =>
      match value with
      | .pyStr _ => some VIR_TYPED_PARAM_STRING
      | .pyBool _ => some VIR_TYPED_PARAM_BOOLEAN
      | .pyInt n =>
          if n < 0 then some VIR_TYPED_PARAM_LLONG else some VIR_TYPED_PARAM_ULLONG
      | .pyFloat _ => some VIR_TYPED_PARAM_DOUBLE
      | _ => none

theorem addOfType_types (t : Int) (k : String) (v : PyVal)
    (res : List VirTypedParam) (p : VirTypedParam)
    (hok : virPyTypedParamsAddOfType t k v = .ok res) (hmem : p ∈ res) :
    p.type = t := by
  unfold virPyTypedParamsAddOfType at hok
  split_ifs at hok
  case pos =>
    cases hu : libvirt_intUnwrap v <;> rw [hu] at hok <;> simp [Except.map] at hok
    subst hok; simp at hmem; subst hmem; rfl
  case pos =>
    cases hu : libvirt_uintUnwrap v <;> rw [hu] at hok <;> simp [Except.map] at hok
    subst hok; simp at hmem; subst hmem; rfl
  case pos =>
    cases hu : libvirt_longlongUnwrap v <;> rw [hu] at hok <;> simp [Except.map] at hok
    subst hok; simp at hmem; subst hmem; rfl
  case pos =>
    cases hu : libvirt_ulonglongUnwrap v <;> rw [hu] at hok <;> simp [Except.map] at hok
    subst hok; simp at hmem; subst hmem; rfl
  case pos =>
    cases hu : libvirt_doubleUnwrap v <;> rw [hu] at hok <;> simp [Except.map] at hok
    subst hok; simp at hmem; subst hmem; rfl
  case pos =>
    cases hu : libvirt_boolUnwrap v <;> rw [hu] at hok <;> simp [Except.map] at hok
    subst hok; simp at hmem; subst hmem; rfl
  case pos =>
    cases hu : libvirt_charPtrUnwrap v <;> rw [hu] at hok <;> simp [Except.map] at hok
    subst hok; simp at hmem; subst hmem; rfl
  case neg =>
    simp at hok
    subst hok; simp at hmem

/-- C6: every entry `virPyDictToTypedParamOne` successfully encodes has
the kind the specification's fixed precedence selects (hint first; else
String for string-like, Bool for boolean, Int64 for negative integral,
UInt64 for non-negative integral, Double for floating-point); and a value
of any other dynamic type with no hint raises the unknown-type type error
and aborts the encode. -/
theorem c6_inferred_kind_precedence (hints : List PyHint) (key : String)
    (value : PyVal) :
    (∀ res p, virPyDictToTypedParamOne hints key value = .ok res → p ∈ res →
      some p.type = specKindPrecedence hints key value) ∧
    (specKindPrecedence hints key value = none →
      virPyDictToTypedParamOne hints key value =
        .error ⟨.typeError, unknownTypeMsg key⟩) := by
  constructor
  · intro res p hok hmem
    unfold virPyDictToTypedParamOne at hok
    unfold specKindPrecedence
    cases hfind : (hints.find? (fun h => h.name = key)) with
    | some hint =>
        rw [hfind] at hok
        simp only [Option.map_some'] at hok ⊢
        rw [addOfType_types hint.type key value res p hok hmem]
    | none =>
        rw [hfind] at hok
        simp only [Option.map_none'] at hok ⊢
        cases value with
        | pyStr s =>
            rw [addOfType_types VIR_TYPED_PARAM_STRING key (.pyStr s) res p hok hmem]
        | pyBool b =>
            rw [addOfType_types VIR_TYPED_PARAM_BOOLEAN key (.pyBool b) res p hok hmem]
        | pyFloat bits =>
            rw [addOfType_types VIR_TYPED_PARAM_DOUBLE key (.pyFloat bits) res p hok hmem]
        | pyInt n =>
            dsimp only at hok ⊢
            by_cases hn : n < 0 ∨ 2 ^ 64 ≤ n
            · rw [if_pos hn] at hok
              have ht := addOfType_types VIR_TYPED_PARAM_LLONG key (.pyInt n) res p hok hmem
              rcases hn with hneg | hbig
              · rw [if_pos hneg, ht]
              · exfalso
                unfold virPyTypedParamsAddOfType at hok
                dsimp only at hok
                rw [if_neg (by decide), if_neg (by decide), if_pos rfl] at hok
                have hno : ¬(-(2 ^ 63 : Int) ≤ n ∧ n < 2 ^ 63) := by
                  rintro ⟨h1, h2⟩
                  have h3 : (2 : Int) ^ 63 < 2 ^ 64 := by norm_num
                  omega
                have hcontra : libvirt_longlongUnwrap (.pyInt n) =
                    .error ⟨.overflowError,
                      "python int too large to convert to C long long"⟩ := by
                  unfold libvirt_longlongUnwrap
                  dsimp only
                  rw [if_neg hno]
                rw [hcontra] at hok
                simp [Except.map] at hok
            · rw [if_neg hn] at hok
              have ht := addOfType_types VIR_TYPED_PARAM_ULLONG key (.pyInt n) res p hok hmem
              rw [if_neg (by omega), ht]
        | pyNone => simp at hok
        | pyTuple xs => simp at hok
        | voidPtrCap q => simp at hok
        | freeCbCap f => simp at hok
  · intro hnone
    unfold specKindPrecedence at hnone
    unfold virPyDictToTypedParamOne
    cases hfind : (hints.find? (fun h => h.name = key)) with
    | some hint => rw [hfind] at hnone; simp at hnone
    | none =>
        rw [hfind] at hnone
        simp only [Option.map_none'] at hnone
        simp only [hfind, Option.map_none']
        cases value with
        | pyNone => rfl
        | pyTuple xs => rfl
        | voidPtrCap q => rfl
        | freeCbCap f => rfl
        | pyStr s => simp at hnone
        | pyBool b => simp at hnone
        | pyFloat bits => simp at hnone
        | pyInt n =>
            exfalso
            dsimp only at hnone
            by_cases hneg : n < 0
            · rw [if_pos hneg] at hnone; simp at hnone
            · rw [if_neg hneg] at hnone; simp at hnone

theorem c6_witness :
    some (4 : Int) = specKindPrecedence [] "mem" (.pyInt 5) ∧
    virPyDictToTypedParamOne [] "bad" .pyNone =
      .error ⟨.typeError, unknownTypeMsg "bad"⟩ :=
  ⟨(c6_inferred_kind_precedence [] "mem" (.pyInt 5)).1
      [⟨"mem", 4, .vULLong 5⟩] ⟨"mem", 4, .vULLong 5⟩ (by rfl) (by simp),
   (c6_inferred_kind_precedence [] "bad" .pyNone).2 rfl⟩

/-! ## C5: schema-mismatch rejection in the explicit-schema encoder -/

theorem setPyGo_ok_keys (S : List VirTypedParam) :
    ∀ (d : PyDict) (arr : List VirTypedParam), setPyGo S d = .ok arr →
    ∀ kv ∈ d, (lookupSchema S kv.1).isSome = true
  | [], _, _, _, hmem => by cases hmem
  | (k, v) :: rest, arr, hok, kv, hmem => by
      unfold setPyGo at hok
      cases hl : lookupSchema S k with
      | none => rw [hl] at hok; cases hok
      | some sp =>
          rw [hl] at hok
          dsimp only at hok
          cases hc : convertToType sp.type v with
          | error e => rw [hc] at hok; cases hok
          | ok val =>
              rw [hc] at hok
              dsimp only at hok
              cases hr : setPyGo S rest with
              | error e => rw [hr] at hok; cases hok
              | ok tail =>
                  cases hmem with
                  | head => simp [hl]
                  | tail _ hmem2 =>
                      exact setPyGo_ok_keys S rest tail hr kv hmem2

theorem setPyGo_first_unmatched (S : List VirTypedParam) :
    ∀ (pre : PyDict) (k : String) (v : PyVal) (rest : PyDict),
    lookupSchema S k = none →
    (∀ kv ∈ pre, ∃ sp val, lookupSchema S kv.1 = some sp ∧
        convertToType sp.type kv.2 = .ok val) →
    setPyGo S (pre ++ (k, v) :: rest) = .error ⟨.lookupError, attrNotRecognizedMsg k⟩
  | [], k, v, rest, hun, _ => by
      simp only [List.nil_append]
      unfold setPyGo
      rw [hun]
  | kv2 :: pre, k, v, rest, hun, hpre => by
      obtain ⟨sp, val, hl, hc⟩ := hpre kv2 (by simp)
      have ih := setPyGo_first_unmatched S pre k v rest hun
        (fun kv3 hm => hpre kv3 (by simp [hm]))
      cases kv2 with
      | mk k2 v2 =>
          simp only [List.cons_append]
          unfold setPyGo
          rw [hl]
          dsimp only
          rw [hc]
          dsimp only
          rw [ih]

/-- C5 amended: a non-empty mapping containing a key that matches no
schema field always makes setPyVirTypedParameter fail — no native array
is returned and the whole size-slot allocation is freed with its own
count — and the raised error is the lookup error naming the first
unmatched key, provided every mapping entry preceding it converts
successfully under the schema (an earlier conversion failure aborts with
that conversion's error instead). -/
theorem c5_unmatched_key_rejected (info : PyDict) (params : List VirTypedParam)
    (hne : info.length ≠ 0) (kv : String × PyVal) (hmem : kv ∈ info)
    (hun : lookupSchema params kv.1 = none) :
    (∃ e, (setPyVirTypedParameter info params).result = .error e ∧
      (setPyVirTypedParameter info params).freed =
        some (info.length, info.length)) ∧
    (∀ pre v rest, info = pre ++ (kv.1, v) :: rest →
      (∀ kv2 ∈ pre, ∃ sp val, lookupSchema params kv2.1 = some sp ∧
          convertToType sp.type kv2.2 = .ok val) →
      (setPyVirTypedParameter info params).result =
        .error ⟨.lookupError, attrNotRecognizedMsg kv.1⟩) := by
  constructor
  · cases hgo : setPyGo params info with
    | ok arr =>
        exfalso
        have := setPyGo_ok_keys params info arr hgo kv hmem
        rw [hun] at this
        cases this
    | error e =>
        refine ⟨e, ?_, ?_⟩ <;>
          · unfold setPyVirTypedParameter
            rw [if_neg hne, hgo]
  · rintro pre v rest rfl hpre
    have hgo := setPyGo_first_unmatched params pre kv.1 v rest hun hpre
    unfold setPyVirTypedParameter
    rw [if_neg hne, hgo]

/-- C5 counterexample: the mapping contains the unmatched key "z", but
because the earlier entry "a" fails its conversion first (a string where
the schema demands an int), the raised error is that conversion's type
error, not a lookup error naming "z" as the claim states. -/
theorem c5_counterexample :
    (setPyVirTypedParameter [("a", .pyStr "x"), ("z", .pyInt 1)]
        [⟨"a", VIR_TYPED_PARAM_INT, .vInt 0⟩]).result =
      .error ⟨.typeError, "an integer is required"⟩ ∧
    lookupSchema [⟨"a", VIR_TYPED_PARAM_INT, .vInt 0⟩] "z" = none ∧
    (⟨.typeError, "an integer is required"⟩ : PyErr) ≠
      ⟨.lookupError, attrNotRecognizedMsg "z"⟩ := by
  refine ⟨rfl, by decide, by decide⟩

theorem c5_witness :
    (setPyVirTypedParameter [("z", .pyInt 1)]
        [⟨"a", VIR_TYPED_PARAM_INT, .vInt 0⟩]).result =
      .error ⟨.lookupError, attrNotRecognizedMsg "z"⟩ :=
  (c5_unmatched_key_rejected [("z", .pyInt 1)]
      [⟨"a", VIR_TYPED_PARAM_INT, .vInt 0⟩] (by decide) ("z", .pyInt 1)
      (by simp) (by decide)).2 [] (.pyInt 1) [] rfl (by simp)

/-! ## C1: codec round-trip -/

/-- The host value the decoder produces for one well-formed typed
parameter (the payload wrapped by the switch case its tag selects). -/
def pyOfParam (p : VirTypedParam) : PyVal :=
  match p.value with
  | .vInt n => .pyInt n
  | .vUInt n => .pyInt (n : Int)
  | .vLLong n => .pyInt n
  | .vULLong n => .pyInt (n : Int)
  | .vDouble bits => .pyFloat bits
  | .vBool b => .pyBool b
  | .vString s => .pyStr s

theorem getVal_wf (p : VirTypedParam) (hwf : p.wf = true) :
    getPyVirTypedParameterVal p = .ok (pyOfParam p) := by
  have hco : typeValueCoherent p.type p.value = true := by
    have h2 := hwf
    simp only [VirTypedParam.wf, Bool.and_eq_true] at h2
    exact h2.1
  cases hv : p.value with
  | vInt n =>
      rw [hv] at hco
      simp only [typeValueCoherent, Bool.and_eq_true, decide_eq_true_eq] at hco
      simp [getPyVirTypedParameterVal, pyOfParam, hco.1, hv, libvirt_intWrap,
        VirTypedValue.asI]
  | vUInt n =>
      rw [hv] at hco
      simp only [typeValueCoherent, Bool.and_eq_true, decide_eq_true_eq] at hco
      simp [getPyVirTypedParameterVal, pyOfParam, hco.1, hv, libvirt_intWrap,
        VirTypedValue.asUi, VIR_TYPED_PARAM_INT, VIR_TYPED_PARAM_UINT]
  | vLLong n =>
      rw [hv] at hco
      simp only [typeValueCoherent, Bool.and_eq_true, decide_eq_true_eq] at hco
      simp [getPyVirTypedParameterVal, pyOfParam, hco.1, hv, libvirt_longlongWrap,
        VirTypedValue.asL, VIR_TYPED_PARAM_INT, VIR_TYPED_PARAM_UINT,
        VIR_TYPED_PARAM_LLONG]
  | vULLong n =>
      rw [hv] at hco
      simp only [typeValueCoherent, Bool.and_eq_true, decide_eq_true_eq] at hco
      simp [getPyVirTypedParameterVal, pyOfParam, hco.1, hv, libvirt_ulonglongWrap,
        VirTypedValue.asUl, VIR_TYPED_PARAM_INT, VIR_TYPED_PARAM_UINT,
        VIR_TYPED_PARAM_LLONG, VIR_TYPED_PARAM_ULLONG]
  | vDouble bits =>
      rw [hv] at hco
      simp only [typeValueCoherent, decide_eq_true_eq] at hco
      simp [getPyVirTypedParameterVal, pyOfParam, hco, hv, pyFloatFromDouble,
        VirTypedValue.asD, VIR_TYPED_PARAM_INT, VIR_TYPED_PARAM_UINT,
        VIR_TYPED_PARAM_LLONG, VIR_TYPED_PARAM_ULLONG, VIR_TYPED_PARAM_DOUBLE]
  | vBool b =>
      rw [hv] at hco
      simp only [typeValueCoherent, decide_eq_true_eq] at hco
      simp [getPyVirTypedParameterVal, pyOfParam, hco, hv, pyBoolFromLong,
        VirTypedValue.asB, VIR_TYPED_PARAM_INT, VIR_TYPED_PARAM_UINT,
        VIR_TYPED_PARAM_LLONG, VIR_TYPED_PARAM_ULLONG, VIR_TYPED_PARAM_DOUBLE,
        VIR_TYPED_PARAM_BOOLEAN]
  | vString s =>
      rw [hv] at hco
      simp only [typeValueCoherent, decide_eq_true_eq] at hco
      simp [getPyVirTypedParameterVal, pyOfParam, hco, hv, libvirt_constcharPtrWrap,
        VirTypedValue.asS, VIR_TYPED_PARAM_INT, VIR_TYPED_PARAM_UINT,
        VIR_TYPED_PARAM_LLONG, VIR_TYPED_PARAM_ULLONG, VIR_TYPED_PARAM_DOUBLE,
        VIR_TYPED_PARAM_BOOLEAN, VIR_TYPED_PARAM_STRING]

theorem dictSet_fresh (d : PyDict) (k : String) (v : PyVal)
    (hf : ∀ kv ∈ d, kv.1 ≠ k) : dictSet d k v = d ++ [(k, v)] := by
  have hany : d.any (fun kv => kv.1 = k) = false := by
    rw [List.any_eq_false]
    intro kv hkv
    simp [hf kv hkv]
  simp [dictSet, hany]

theorem decodeGo_nodup :
    ∀ (P : List VirTypedParam) (acc : PyDict),
    (∀ p ∈ P, p.wf = true) →
    (P.map VirTypedParam.field).Nodup →
    (∀ p ∈ P, ∀ kv ∈ acc, kv.1 ≠ p.field) →
    getPyVirTypedParameterGo P acc =
      .ok (acc ++ P.map (fun p => (p.field, pyOfParam p)))
  | [], acc, _, _, _ => by simp [getPyVirTypedParameterGo]
  | p :: rest, acc, hwf, hnd, hfresh => by
      simp only [List.map_cons, List.nodup_cons] at hnd
      obtain ⟨hpnotin, hndr⟩ := hnd
      have hval := getVal_wf p (hwf p (by simp))
      have hfresh2 : ∀ q ∈ rest, ∀ kv ∈ acc ++ [(p.field, pyOfParam p)],
          kv.1 ≠ q.field := by
        intro q hq kv hkv
        rcases List.mem_append.mp hkv with hkv1 | hkv2
        · exact hfresh q (by simp [hq]) kv hkv1
        · have hkv3 : kv = (p.field, pyOfParam p) := by simpa using hkv2
          rw [hkv3]
          intro he
          have he2 : p.field = q.field := he
          apply hpnotin
          rw [he2]
          exact List.mem_map_of_mem VirTypedParam.field hq
      have ih := decodeGo_nodup rest (acc ++ [(p.field, pyOfParam p)])
        (fun q hq => hwf q (by simp [hq])) hndr hfresh2
      simp only [getPyVirTypedParameterGo, hval]
      rw [dictSet_fresh acc p.field (pyOfParam p)
        (fun kv hkv => hfresh p (by simp) kv hkv)]
      rw [ih]
      simp

theorem decode_roundtrip_dict (P : List VirTypedParam)
    (hwf : ∀ p ∈ P, p.wf = true) (hnd : (P.map VirTypedParam.field).Nodup) :
    getPyVirTypedParameter P = .ok (P.map (fun p => (p.field, pyOfParam p))) := by
  have h := decodeGo_nodup P [] hwf hnd (by intro p hp kv hkv; cases hkv)
  simpa [getPyVirTypedParameter] using h

theorem strncpyField_eq (s : String)
    (h : s.length < VIR_TYPED_PARAM_FIELD_LENGTH) : strncpyField s = s := by
  have he : s.toList.length = s.length := rfl
  have hlen : s.toList.length ≤ VIR_TYPED_PARAM_FIELD_LENGTH - 1 := by
    unfold VIR_TYPED_PARAM_FIELD_LENGTH at h ⊢
    omega
  unfold strncpyField
  rw [List.take_of_length_le hlen]
  cases s
  rfl

theorem convert_pyOfParam (p : VirTypedParam) (hwf : p.wf = true) :
    convertToType p.type (pyOfParam p) = .ok p.value := by
  have hco : typeValueCoherent p.type p.value = true := by
    have h2 := hwf
    simp only [VirTypedParam.wf, Bool.and_eq_true] at h2
    exact h2.1
  cases hv : p.value with
  | vInt n =>
      rw [hv] at hco
      simp only [typeValueCoherent, Bool.and_eq_true, decide_eq_true_eq] at hco
      obtain ⟨ht, h1, h2⟩ := hco
      have hpy : pyOfParam p = .pyInt n := by unfold pyOfParam; rw [hv]
      rw [ht, hpy]
      unfold convertToType libvirt_intUnwrap
      rw [if_pos rfl]
      dsimp only
      rw [if_pos ⟨h1, h2⟩]
      rfl
  | vUInt n =>
      rw [hv] at hco
      simp only [typeValueCoherent, Bool.and_eq_true, decide_eq_true_eq] at hco
      obtain ⟨ht, h1⟩ := hco
      have hcast : (n : Int) < 2 ^ 32 := by exact_mod_cast h1
      have hpy : pyOfParam p = .pyInt (n : Int) := by unfold pyOfParam; rw [hv]
      rw [ht, hpy]
      unfold convertToType libvirt_uintUnwrap
      rw [if_neg (by decide), if_pos rfl]
      dsimp only
      rw [if_pos ⟨Int.natCast_nonneg n, hcast⟩]
      simp [Except.map]
  | vLLong n =>
      rw [hv] at hco
      simp only [typeValueCoherent, Bool.and_eq_true, decide_eq_true_eq] at hco
      obtain ⟨ht, h1, h2⟩ := hco
      have hpy : pyOfParam p = .pyInt n := by unfold pyOfParam; rw [hv]
      rw [ht, hpy]
      unfold convertToType libvirt_longlongUnwrap
      rw [if_neg (by decide), if_neg (by decide), if_pos rfl]
      dsimp only
      rw [if_pos ⟨h1, h2⟩]
      rfl
  | vULLong n =>
      rw [hv] at hco
      simp only [typeValueCoherent, Bool.and_eq_true, decide_eq_true_eq] at hco
      obtain ⟨ht, h1⟩ := hco
      have hcast : (n : Int) < 2 ^ 64 := by exact_mod_cast h1
      have hpy : pyOfParam p = .pyInt (n : Int) := by unfold pyOfParam; rw [hv]
      rw [ht, hpy]
      unfold convertToType libvirt_ulonglongUnwrap
      rw [if_neg (by decide), if_neg (by decide), if_neg (by decide), if_pos rfl]
      dsimp only
      rw [if_pos ⟨Int.natCast_nonneg n, hcast⟩]
      simp [Except.map]
  | vDouble bits =>
      rw [hv] at hco
      simp only [typeValueCoherent, decide_eq_true_eq] at hco
      have hpy : pyOfParam p = .pyFloat bits := by unfold pyOfParam; rw [hv]
      rw [hco, hpy]
      unfold convertToType libvirt_doubleUnwrap
      rw [if_neg (by decide), if_neg (by decide), if_neg (by decide),
        if_neg (by decide), if_pos rfl]
      rfl
  | vBool b =>
      rw [hv] at hco
      simp only [typeValueCoherent, decide_eq_true_eq] at hco
      have hpy : pyOfParam p = .pyBool b := by unfold pyOfParam; rw [hv]
      rw [hco, hpy]
      unfold convertToType libvirt_boolUnwrap pyTruthy
      rw [if_neg (by decide), if_neg (by decide), if_neg (by decide),
        if_neg (by decide), if_neg (by decide), if_pos rfl]
      rfl
  | vString str =>
      rw [hv] at hco
      simp only [typeValueCoherent, decide_eq_true_eq] at hco
      have hpy : pyOfParam p = .pyStr str := by unfold pyOfParam; rw [hv]
      rw [hco, hpy]
      unfold convertToType libvirt_charPtrUnwrap
      rw [if_neg (by decide), if_neg (by decide), if_neg (by decide),
        if_neg (by decide), if_neg (by decide), if_neg (by decide), if_pos rfl]
      rfl

theorem lookupSchema_self :
    ∀ (P : List VirTypedParam), (P.map VirTypedParam.field).Nodup →
    ∀ p ∈ P, lookupSchema P p.field = some p
  | [], _, p, hp => by cases hp
  | q :: rest, hnd, p, hp => by
      simp only [List.map_cons, List.nodup_cons] at hnd
      obtain ⟨hqnot, hndr⟩ := hnd
      cases hp with
      | head =>
          unfold lookupSchema
          exact List.find?_cons_of_pos _ (by simp)
      | tail _ hp2 =>
          have hne : ¬(q.field = p.field) := by
            intro he
            exact hqnot (he ▸ List.mem_map_of_mem VirTypedParam.field hp2)
          have ih := lookupSchema_self rest hndr p hp2
          unfold lookupSchema at ih ⊢
          rw [List.find?_cons_of_neg _ (by simp [hne])]
          exact ih

theorem setPyGo_roundtrip (S : List VirTypedParam) :
    ∀ (Q : List VirTypedParam),
    (∀ p ∈ Q, lookupSchema S p.field = some p) →
    (∀ p ∈ Q, p.wf = true) →
    setPyGo S (Q.map (fun p => (p.field, pyOfParam p))) = .ok Q
  | [], _, _ => rfl
  | p :: rest, hlk, hwf => by
      have hl := hlk p (by simp)
      have hc := convert_pyOfParam p (hwf p (by simp))
      have hlen : p.field.length < VIR_TYPED_PARAM_FIELD_LENGTH := by
        have h2 := hwf p (by simp)
        simp only [VirTypedParam.wf, Bool.and_eq_true, decide_eq_true_eq] at h2
        exact h2.2
      have hname := strncpyField_eq p.field hlen
      have ih := setPyGo_roundtrip S rest (fun q hq => hlk q (by simp [hq]))
        (fun q hq => hwf q (by simp [hq]))
      simp only [List.map_cons]
      unfold setPyGo
      rw [hl]
      dsimp only
      rw [hc]
      dsimp only
      rw [ih]
      dsimp only
      rw [hname]

/-- C1 counterexample: the empty TypedValueSet vacuously has distinct
names and only recognized kinds; decoding it yields the empty mapping,
but re-encoding that mapping against the original (empty) set as schema
raises the empty-dictionary lookup error instead of returning an array
equal to the input. -/
theorem c1_counterexample :
    getPyVirTypedParameter [] = .ok [] ∧
    (setPyVirTypedParameter [] []).result = .error ⟨.lookupError, emptyDictMsg⟩ :=
  ⟨rfl, rfl⟩

/-- C1 amended: for every non-empty TypedValueSet whose entries are
well-formed (payloads in their C ranges, names within the fixed field
buffer), carry distinct names and only recognized kinds, decoding with
getPyVirTypedParameter and re-encoding the resulting mapping against the
original set as schema yields a native array equal to the original
field-for-field (same name, kind and value for every element). -/
theorem c1_roundtrip_amended (P : List VirTypedParam) (hne : P ≠ [])
    (hwf : ∀ p ∈ P, p.wf = true)
    (hnd : (P.map VirTypedParam.field).Nodup)
    (hrec : ∀ p ∈ P, recognizedKind p.type = true) :
    ∃ d, getPyVirTypedParameter P = .ok d ∧
      (setPyVirTypedParameter d P).result = .ok P := by
  have _ := hrec
  refine ⟨P.map (fun p => (p.field, pyOfParam p)),
    decode_roundtrip_dict P hwf hnd, ?_⟩
  unfold setPyVirTypedParameter
  rw [if_neg (by simpa using hne)]
  rw [setPyGo_roundtrip P P (lookupSchema_self P hnd) hwf]

theorem c1_witness :
    ∃ d, getPyVirTypedParameter
        [⟨"i", 1, .vInt (-5)⟩, ⟨"u", 2, .vUInt 7⟩, ⟨"l", 3, .vLLong (-9)⟩,
         ⟨"ul", 4, .vULLong 3⟩, ⟨"d", 5, .vDouble 42⟩, ⟨"b", 6, .vBool true⟩,
         ⟨"s", 7, .vString "x"⟩] = .ok d ∧
      (setPyVirTypedParameter d
        [⟨"i", 1, .vInt (-5)⟩, ⟨"u", 2, .vUInt 7⟩, ⟨"l", 3, .vLLong (-9)⟩,
         ⟨"ul", 4, .vULLong 3⟩, ⟨"d", 5, .vDouble 42⟩, ⟨"b", 6, .vBool true⟩,
         ⟨"s", 7, .vString "x"⟩]).result =
      .ok [⟨"i", 1, .vInt (-5)⟩, ⟨"u", 2, .vUInt 7⟩, ⟨"l", 3, .vLLong (-9)⟩,
         ⟨"ul", 4, .vULLong 3⟩, ⟨"d", 5, .vDouble 42⟩, ⟨"b", 6, .vBool true⟩,
         ⟨"s", 7, .vString "x"⟩] :=
  c1_roundtrip_amended
    [⟨"i", 1, .vInt (-5)⟩, ⟨"u", 2, .vUInt 7⟩, ⟨"l", 3, .vLLong (-9)⟩,
     ⟨"ul", 4, .vULLong 3⟩, ⟨"d", 5, .vDouble 42⟩, ⟨"b", 6, .vBool true⟩,
     ⟨"s", 7, .vString "x"⟩]
    (by simp) (by decide) (by decide) (by decide)

end LibvirtPy
